import Mathlib

/-!
Verification of the Cloudflare-Analytics collector (`cloudflare_analytics.py`)
against its natural-language specification.

The program periodically fetches 30 days of per-day CDN analytics and appends
the rows that are not already present to a Google-Sheets tab.  The model below
is a shallow embedding of the parts the specification talks about:

* `cacheRatio100` / `mkDailyRecord` — the per-day record construction of
  `CloudflareAnalytics.get_last_30days_analytics` (lines 139-158), with the
  cache ratio kept exactly as an integer number of hundredths of a percent
  (the value `round(cached/total*100, 2)` equals `cacheRatio100/100`).
* `format_bytes` — `GoogleSheetHandler.format_bytes` (lines 186-192), the
  1024-ladder byte formatter.  Python's binary floats `b / 1024**k` are kept
  as exact fractions; the two-decimal rendering keeps the rounded hundredths
  as a natural number.
* `get_existing_data`, `existingDatesOf`, `append_daily_data` — the
  dedup-and-append engine (lines 194-313).  The spreadsheet is modelled as an
  explicit `SheetStore` state: the grid of cells plus success flags for the
  read, the batch append, and the cosmetic date-format write, and the result
  of the `get_sheet_id` lookup.  Raised exceptions become `Except.error`; the
  store returned alongside shows the mutations that happened before the raise.
* `should_collect_data` — the scheduling gate (lines 330-334).
-/

/-- A calendar date, the `dimensions.date` of one analytics row. -/
structure Date where
  year : Nat
  month : Nat
  day : Nat
deriving DecidableEq, Repr

/-- Two-digit zero padding, as the sheet's `yyyy-mm-dd` number format and the
analytics API's ISO dates print month and day. -/
def pad2 (n : Nat) : String :=
  if n < 10 then "0" ++ toString n else toString n

/-- ISO `YYYY-MM-DD` rendering of a date: the form in which the analytics API
serialises dates and in which the sheet displays a date-typed cell under the
`yyyy-mm-dd` number format applied by the cosmetic formatting step. -/
def dateISO (d : Date) : String :=
  toString d.year ++ "-" ++ pad2 d.month ++ "-" ++ pad2 d.day

/-- The `=DATE(y, m, d)` formula string built at line 241 of the source and
sent with `valueInputOption USER_ENTERED`, which makes the sheet store a
date-typed cell. -/
def formatted_date (d : Date) : String :=
  "=DATE(" ++ toString d.year ++ ", " ++ toString d.month ++ ", " ++ toString d.day ++ ")"

/-- Round `num/den` (with `den > 0`) to the nearest number of hundredths:
`(200*num + den) / (2*den)` is `floor(100*num/den + 1/2)`.  This captures the
two-decimal values the source produces with `round(x, 2)` and `f-string .2f`
formatting exactly, as an integer count of hundredths. -/
def roundHundredths (num den : Nat) : Nat :=
  (200 * num + den) / (2 * den)

/-- Render `num/den` with exactly two decimal digits, as Python's `.2f`
format specifier does at lines 190-192. -/
def fmt2Frac (num den : Nat) : String :=
  toString (roundHundredths num den / 100) ++ "." ++ pad2 (roundHundredths num den % 100)

/-- `GoogleSheetHandler.format_bytes` (lines 186-192): walk the unit ladder
B, KB, MB, GB, TB dividing by 1024, printing the first value below 1024 with
two decimals; after the TB division everything is printed as PB.  The loop is
unrolled; `bytes_value / 1024**k < 1024` is exactly `bytes_value < 1024**(k+1)`. -/
def format_bytes (bytes_value : Nat) : String :=
  if bytes_value < 1024 then fmt2Frac bytes_value 1 ++ " " ++ "B"
  else if bytes_value < 1024 ^ 2 then fmt2Frac bytes_value 1024 ++ " " ++ "KB"
  else if bytes_value < 1024 ^ 3 then fmt2Frac bytes_value (1024 ^ 2) ++ " " ++ "MB"
  else if bytes_value < 1024 ^ 4 then fmt2Frac bytes_value (1024 ^ 3) ++ " " ++ "GB"
  else if bytes_value < 1024 ^ 5 then fmt2Frac bytes_value (1024 ^ 4) ++ " " ++ "TB"
  else fmt2Frac bytes_value (1024 ^ 5) ++ " " ++ "PB"

/-- Lines 150-156: the cache ratio `round(cached/total*100, 2)` when
`total > 0`, else `0` — held exactly as hundredths of a percent. -/
def cacheRatio100 (cachedRequests totalRequests : Nat) : Nat :=
  if totalRequests > 0 then roundHundredths (cachedRequests * 100) totalRequests else 0

/-- One fetched analytics row (the `daily_record` dict of lines 139-156).
`cacheRatio100` holds the derived two-decimal percentage in hundredths. -/
structure DailyRecord where
  date : Date
  uniqueVisitors : Nat
  pageViews : Nat
  totalRequests : Nat
  cachedRequests : Nat
  totalBytes : Nat
  cachedBytes : Nat
  threats : Nat
  cacheRatio100 : Nat
deriving DecidableEq, Repr

/-- Lines 139-158: build one daily record, deriving the cache ratio. -/
def mkDailyRecord (date : Date)
    (uniques pageViews totalRequests cachedRequests bytes cachedBytes threats : Nat) :
    DailyRecord :=
  { date := date
    uniqueVisitors := uniques
    pageViews := pageViews
    totalRequests := totalRequests
    cachedRequests := cachedRequests
    totalBytes := bytes
    cachedBytes := cachedBytes
    threats := threats
    cacheRatio100 := cacheRatio100 cachedRequests totalRequests }

/-- The derived `cacheRatioPercent` of the data model, as the rational number
the spreadsheet cell holds. -/
def DailyRecord.cacheRatioPercent (r : DailyRecord) : ℚ :=
  (r.cacheRatio100 : ℚ) / 100

/-- `round(q, 2)`: round to two decimal places (used by the specification's
numerical property). -/
def round2 (q : ℚ) : ℚ :=
  (round (q * 100) : ℚ) / 100

/-- One spreadsheet cell.  `date` is a date-typed cell: the `=DATE(y, m, d)`
formula of line 241 after the `USER_ENTERED` interpretation of the append.
`dec2 n` is a numeric cell holding the two-decimal value `n/100` (the cache
ratio column). -/
inductive Cell where
  | date (d : Date)
  | str (s : String)
  | nat (n : Nat)
  | dec2 (n : Nat)
deriving DecidableEq, Repr

/-- The string the `values().get` read returns for a cell (the API's
formatted-value rendering); a date cell displays as ISO under the
`yyyy-mm-dd` number format the program applies. -/
def Cell.render : Cell → String
  | .date d => dateISO d
  | .str s => s
  | .nat n => toString n
  | .dec2 n => toString (n / 100) ++ "." ++ pad2 (n % 100)

/-- Lines 244-254: the nine-column row written for one new record. -/
def toRow (day : DailyRecord) : List Cell :=
  [ Cell.date day.date,
    Cell.nat day.uniqueVisitors,
    Cell.nat day.pageViews,
    Cell.nat day.totalRequests,
    Cell.nat day.cachedRequests,
    Cell.dec2 day.cacheRatio100,
    Cell.str (format_bytes day.totalBytes),
    Cell.str (format_bytes day.cachedBytes),
    Cell.nat day.threats ]

/-- Lines 218-221: the fixed header row, synthesized in memory when the read
returns no rows. -/
def headers : List String :=
  ["날짜", "고유 방문자", "페이지뷰", "총 요청수", "캐시된 요청수",
   "캐시 비율(%)", "총 데이터", "캐시된 데이터", "위협 감지"]

/-- The spreadsheet tab as external state: its grid of cells, plus the
outcomes of the external API calls the engine makes — whether the
`values().get` read succeeds (`readOk`), whether the `values().append` batch
write succeeds (`appendOk`), what `get_sheet_id` returns (`sheetId`, `none`
both when the lookup raised and when the title was not found), and whether
the cosmetic `batchUpdate` format write succeeds (`formatOk`). -/
structure SheetStore where
  rows : List (List Cell)
  readOk : Bool
  appendOk : Bool
  sheetId : Option Nat
  formatOk : Bool
deriving DecidableEq, Repr

/-- The exceptions that can escape `append_daily_data` (they are printed and
re-raised by lines 311-313). -/
inductive SheetError where
  /-- `row[0]` on an empty row in the comprehension of line 229. -/
  | rowIndex
  /-- the `values().append` call of lines 266-272 raised. -/
  | writeFailed
  /-- the cosmetic `batchUpdate` call of lines 300-303 raised. -/
  | formatFailed
deriving DecidableEq, Repr

/-- The write confirmation the sheets API returns for a batch append (the
`result` of line 266, returned at line 309). -/
structure AppendResponse where
  updatedRows : Nat
deriving DecidableEq, Repr

/-- What one call of `append_daily_data` communicates: `retval` is the Python
return value (`none` models returning `None`); `reportedNew` and
`reportedDup` are the counts the function computes and prints at lines
305-307 (the duplicate count is printed only when positive; a value of `0`
here models that nothing is printed about duplicates). -/
structure AppendOutcome where
  retval : Option AppendResponse
  reportedNew : Nat
  reportedDup : Nat
deriving DecidableEq, Repr

/-- `GoogleSheetHandler.get_existing_data` (lines 194-205): return the grid
as rendered strings; any exception is caught, logged, and turned into `[]`. -/
def get_existing_data (store : SheetStore) : List (List String) :=
  if store.readOk then store.rows.map (fun row => row.map Cell.render) else []

/-- The `row[0]` projection of the set comprehension at line 229, over all
rows after the first; an empty row raises `IndexError`. -/
def firstCol : List (List String) → Except SheetError (List String)
  | [] => .ok []
  | [] :: _ => .error .rowIndex
  | (c :: _) :: rest => (firstCol rest).map (fun l => c :: l)

/-- Lines 214-229: read the current snapshot, substitute the in-memory header
row when it is empty, and collect the dates of every row after the first
(`existing_data[1:]` — the first row is assumed to be the header). -/
def existingDatesOf (store : SheetStore) : Except SheetError (List String) :=
  let existing_data := get_existing_data store
  let existing_data := if existing_data.isEmpty then [headers] else existing_data
  if existing_data.length > 1 then firstCol (existing_data.drop 1) else .ok []

/-- The ascending sort key of line 232: Python compares the `날짜` strings
code point by code point. -/
def charListLe : List Char → List Char → Bool
  | [], _ => true
  | _ :: _, [] => false
  | a :: as, b :: bs => if a = b then charListLe as bs else decide (a < b)

/-- `a` sorts no later than `b` under the line-232 key (the ISO date string). -/
def recordLe (a b : DailyRecord) : Prop :=
  charListLe (dateISO a.date).data (dateISO b.date).data = true

instance recordLe.decRel : DecidableRel recordLe := by
  intro a b
  unfold recordLe
  infer_instance

/-- Line 232: `daily_data.sort(key=lambda x: x['날짜'])` — a stable ascending
sort on the date string. -/
def sortedRecords (daily_data : List DailyRecord) : List DailyRecord :=
  daily_data.insertionSort recordLe

/-- The new-rows selection of the loop at lines 238-257: the records, in
sorted order, whose date string is not among the existing dates. -/
def newRecordsOf (existing_dates : List String) (daily_data : List DailyRecord) :
    List DailyRecord :=
  (sortedRecords daily_data).filter (fun day => !(decide (dateISO day.date ∈ existing_dates)))

/-- The `duplicate_count` of the same loop: how many records were skipped
because their date string is already present. -/
def dupCountOf (existing_dates : List String) (daily_data : List DailyRecord) : Nat :=
  ((sortedRecords daily_data).filter (fun day => decide (dateISO day.date ∈ existing_dates))).length

/-- The store after the batch append of lines 266-272 has written the new
rows (cells as interpreted by `USER_ENTERED`) at the end of the grid. -/
def appendedStore (store : SheetStore) (existing_dates : List String)
    (daily_data : List DailyRecord) : SheetStore :=
  { store with rows := store.rows ++ (newRecordsOf existing_dates daily_data).map toRow }

/-- The outcome of a call that performed the batch append: the returned write
confirmation plus the two counts printed at lines 305-307. -/
def successOutcome (existing_dates : List String) (daily_data : List DailyRecord) :
    AppendOutcome :=
  { retval := some { updatedRows := ((newRecordsOf existing_dates daily_data).map toRow).length }
    reportedNew := ((newRecordsOf existing_dates daily_data).map toRow).length
    reportedDup := dupCountOf existing_dates daily_data }

/-- Lines 231-309 after the snapshot has been read: sort, split into new rows
and duplicates, return `None` when there is nothing new, otherwise batch-append
the new rows (a raise there leaves the store unwritten), then run the cosmetic
date-format step — skipped when `get_sheet_id` gave `None` or the falsy id `0`
(Python `if sheet_id:`), and a raise in its `batchUpdate` propagates even
though the append has already mutated the store. -/
def appendCore (store : SheetStore) (existing_dates : List String)
    (daily_data : List DailyRecord) : Except SheetError AppendOutcome × SheetStore :=
  if ((newRecordsOf existing_dates daily_data).map toRow).isEmpty then
    (.ok { retval := none, reportedNew := 0,
           reportedDup := dupCountOf existing_dates daily_data }, store)
  else if store.appendOk then
    match store.sheetId with
    | none =>
      (.ok (successOutcome existing_dates daily_data),
       appendedStore store existing_dates daily_data)
    | some id =>
      if id = 0 then
        (.ok (successOutcome existing_dates daily_data),
         appendedStore store existing_dates daily_data)
      else if store.formatOk then
        (.ok (successOutcome existing_dates daily_data),
         appendedStore store existing_dates daily_data)
      else
        (.error .formatFailed, appendedStore store existing_dates daily_data)
  else (.error .writeFailed, store)

/-- `GoogleSheetHandler.append_daily_data` (lines 207-313): return `None`
outright on empty input, otherwise read the snapshot, dedup, and append. -/
def append_daily_data (store : SheetStore) (daily_data : List DailyRecord) :
    Except SheetError AppendOutcome × SheetStore :=
  if daily_data.isEmpty then
    (.ok { retval := none, reportedNew := 0, reportedDup := 0 }, store)
  else
    match existingDatesOf store with
    | .error e => (.error e, store)
    | .ok existing_dates => appendCore store existing_dates daily_data

/-- A wall-clock timestamp, as far as the program inspects it. -/
structure Timestamp where
  year : Nat
  month : Nat
  day : Nat
  hour : Nat
  minute : Nat
deriving DecidableEq, Repr

/-- `should_collect_data` (lines 330-334): collect only on the first day of
the month. -/
def should_collect_data (now : Timestamp) : Bool :=
  now.day == 1

/-! ### Concrete sample data for witnesses and counterexamples -/

/-- The header row as cells, as a user-prepared sheet would contain it. -/
def headerRow : List Cell := headers.map Cell.str

/-- A completely empty sheet whose API calls all succeed. -/
def emptyOkStore : SheetStore :=
  { rows := [], readOk := true, appendOk := true, sheetId := none, formatOk := true }

/-- An empty sheet whose first tab has the falsy sheet id 0. -/
def emptyOkStore2 : SheetStore :=
  { rows := [], readOk := true, appendOk := true, sheetId := some 0, formatOk := true }

/-- A sheet holding just the header row, all API calls succeeding. -/
def headeredStore : SheetStore :=
  { rows := [headerRow], readOk := true, appendOk := true, sheetId := none, formatOk := true }

/-- A sheet where the sheet-id lookup succeeds (id 5) but the cosmetic
format write fails. -/
def fmtFailStore : SheetStore :=
  { rows := [headerRow], readOk := true, appendOk := true, sheetId := some 5, formatOk := false }

/-- A second sheet with a failing format write (id 7). -/
def fmtFailStore2 : SheetStore :=
  { rows := [headerRow], readOk := true, appendOk := true, sheetId := some 7, formatOk := false }

/-- A sheet whose snapshot read fails. -/
def readFailStore : SheetStore :=
  { rows := [headerRow], readOk := false, appendOk := true, sheetId := none, formatOk := true }

/-- Sample fetched records. -/
def janRecord : DailyRecord := mkDailyRecord ⟨2024, 1, 1⟩ 5 6 8 4 2048 1024 0

def sampleRecord : DailyRecord := mkDailyRecord ⟨2024, 1, 3⟩ 10 20 30 15 2048 1024 2

def febRecord : DailyRecord := mkDailyRecord ⟨2024, 2, 10⟩ 7 9 12 6 4096 2048 1

def marRecord : DailyRecord := mkDailyRecord ⟨2024, 3, 5⟩ 3 4 10 5 512 256 0

def mayRecord : DailyRecord := mkDailyRecord ⟨2024, 5, 2⟩ 2 3 4 2 100 50 0

def junRecordA : DailyRecord := mkDailyRecord ⟨2024, 6, 1⟩ 1 2 3 1 100 50 0

def junRecordB : DailyRecord := mkDailyRecord ⟨2024, 6, 1⟩ 9 9 9 9 999 99 9

def julRecord : DailyRecord := mkDailyRecord ⟨2024, 7, 4⟩ 1 1 1 1 1 1 1

/-! ### Helper lemmas about the embedding -/

lemma charListLe_refl : ∀ l : List Char, charListLe l l = true
  | [] => rfl
  | a :: as => by simp [charListLe, charListLe_refl as]

lemma recordLe_of_date_eq {a b : DailyRecord} (h : b.date = a.date) : recordLe a b := by
  unfold recordLe
  rw [h]
  exact charListLe_refl _

lemma sortedRecords_ne_nil {records : List DailyRecord} (h : records ≠ []) :
    sortedRecords records ≠ [] := by
  intro hs
  apply h
  have hlen := List.length_insertionSort recordLe records
  rw [sortedRecords] at hs
  rw [hs] at hlen
  exact List.length_eq_zero.mp hlen.symm

lemma mem_sortedRecords {records : List DailyRecord} {r : DailyRecord} :
    r ∈ sortedRecords records ↔ r ∈ records := by
  rw [sortedRecords]
  exact List.mem_insertionSort recordLe

lemma head_render_toRow (r : DailyRecord) :
    ∃ rest, (toRow r).map Cell.render = dateISO r.date :: rest :=
  ⟨_, rfl⟩

lemma toRow_ne_nil (r : DailyRecord) : toRow r ≠ [] := by
  simp [toRow]

lemma firstCol_ok (rows : List (List String)) (h : ∀ r ∈ rows, r ≠ []) :
    ∃ ds, firstCol rows = .ok ds ∧ ∀ s, s ∈ ds ↔ ∃ rest, (s :: rest) ∈ rows := by
  induction rows with
  | nil => exact ⟨[], rfl, by simp⟩
  | cons r rest ih =>
    obtain ⟨ds, hds, hmem⟩ := ih (fun x hx => h x (List.mem_cons_of_mem _ hx))
    cases r with
    | nil => exact absurd rfl (h [] (List.mem_cons_self _ _))
    | cons c cs =>
      refine ⟨c :: ds, by simp [firstCol, hds, Except.map], fun s => ?_⟩
      constructor
      · intro hs
        rcases List.mem_cons.mp hs with rfl | hs'
        · exact ⟨cs, List.mem_cons_self _ _⟩
        · obtain ⟨tl, htl⟩ := (hmem s).mp hs'
          exact ⟨tl, List.mem_cons_of_mem _ htl⟩
      · rintro ⟨tl, htl⟩
        rcases List.mem_cons.mp htl with heq | hmem'
        · injection heq with h1 _
          exact List.mem_cons.mpr (Or.inl h1)
        · exact List.mem_cons.mpr (Or.inr ((hmem s).mpr ⟨tl, hmem'⟩))

lemma existingDatesOf_eq_firstCol (store : SheetStore) (hread : store.readOk = true)
    (hne : store.rows ≠ []) :
    existingDatesOf store =
      firstCol ((store.rows.drop 1).map (fun row => row.map Cell.render)) := by
  obtain ⟨rows, rok, aok, sid, fok⟩ := store
  simp only at hread hne ⊢
  subst hread
  cases rows with
  | nil => exact absurd rfl hne
  | cons r rest =>
    cases rest with
    | nil => simp [existingDatesOf, get_existing_data, firstCol]
    | cons b bs => simp [existingDatesOf, get_existing_data]

lemma existingDatesOf_spec (store : SheetStore) (hread : store.readOk = true)
    (hne : store.rows ≠ []) (hrows : ∀ r ∈ store.rows, r ≠ []) :
    ∃ ds, existingDatesOf store = .ok ds ∧
      ∀ s, s ∈ ds ↔
        ∃ rest, (s :: rest) ∈ (store.rows.drop 1).map (fun row => row.map Cell.render) := by
  have hdropne : ∀ r ∈ (store.rows.drop 1).map (fun row => row.map Cell.render), r ≠ [] := by
    intro r hr
    obtain ⟨row, hrow, rfl⟩ := List.mem_map.mp hr
    have hrow' : row ∈ store.rows := List.mem_of_mem_drop hrow
    simpa using hrows row hrow'
  obtain ⟨ds, hds, hmem⟩ := firstCol_ok _ hdropne
  exact ⟨ds, (existingDatesOf_eq_firstCol store hread hne).trans hds, hmem⟩

lemma get_existing_data_of_read_fail (store : SheetStore) (h : store.readOk = false) :
    get_existing_data store = [] := by
  simp [get_existing_data, h]

lemma existingDatesOf_of_get_nil (store : SheetStore) (h : get_existing_data store = []) :
    existingDatesOf store = .ok [] := by
  simp [existingDatesOf, h]

lemma newRecordsOf_nil_dates (dd : List DailyRecord) :
    newRecordsOf [] dd = sortedRecords dd := by
  simp [newRecordsOf]

lemma dupCountOf_nil_dates (dd : List DailyRecord) : dupCountOf [] dd = 0 := by
  simp [dupCountOf]

lemma append_daily_data_eq_core (store : SheetStore) (dd : List DailyRecord)
    (ds : List String) (hdd : dd ≠ []) (hds : existingDatesOf store = .ok ds) :
    append_daily_data store dd = appendCore store ds dd := by
  simp [append_daily_data, hds, List.isEmpty_eq_false.mpr hdd]

lemma appendCore_all_dup (store : SheetStore) (ds : List String) (dd : List DailyRecord)
    (h : ∀ r ∈ dd, dateISO r.date ∈ ds) :
    appendCore store ds dd =
      (.ok { retval := none, reportedNew := 0, reportedDup := dd.length }, store) := by
  have hnew : newRecordsOf ds dd = [] := by
    rw [newRecordsOf, List.filter_eq_nil_iff]
    intro a ha
    simp [h a (mem_sortedRecords.mp ha)]
  have hdup : dupCountOf ds dd = dd.length := by
    rw [dupCountOf]
    have hself : (sortedRecords dd).filter (fun day => decide (dateISO day.date ∈ ds)) =
        sortedRecords dd := by
      rw [List.filter_eq_self]
      intro a ha
      simp [h a (mem_sortedRecords.mp ha)]
    rw [hself, sortedRecords, List.length_insertionSort]
  simp [appendCore, hnew, hdup]

lemma appendCore_success (store : SheetStore) (ds : List String) (dd : List DailyRecord)
    (happ : store.appendOk = true)
    (hfmt : store.formatOk = true ∨ store.sheetId = none ∨ store.sheetId = some 0)
    (hnew : newRecordsOf ds dd ≠ []) :
    appendCore store ds dd = (.ok (successOutcome ds dd), appendedStore store ds dd) := by
  have hne : ((newRecordsOf ds dd).map toRow).isEmpty = false := by
    simp [List.isEmpty_eq_false, hnew]
  rcases hfmt with hf | hs | hs
  · cases hsid : store.sheetId with
    | none => simp [appendCore, hne, happ, hsid]
    | some id =>
      by_cases hid : id = 0
      · simp [appendCore, hne, happ, hsid, hid]
      · simp [appendCore, hne, happ, hsid, hid, hf]
  · simp [appendCore, hne, happ, hs]
  · simp [appendCore, hne, happ, hs]

lemma appendCore_format_fail (store : SheetStore) (ds : List String) (dd : List DailyRecord)
    (happ : store.appendOk = true) (id : Nat) (hsid : store.sheetId = some id)
    (hid : id ≠ 0) (hfok : store.formatOk = false) (hnew : newRecordsOf ds dd ≠ []) :
    appendCore store ds dd = (.error .formatFailed, appendedStore store ds dd) := by
  have hne : ((newRecordsOf ds dd).map toRow).isEmpty = false := by
    simp [List.isEmpty_eq_false, hnew]
  simp [appendCore, hne, happ, hsid, hid, hfok]

lemma roundHundredths_eq_round (num den : Nat) (hden : 0 < den) :
    (roundHundredths num den : ℤ) = round ((num : ℚ) / (den : ℚ) * 100) := by
  have hD : (0 : ℚ) < ((2 * den : ℕ) : ℚ) := by
    have h2 : 0 < 2 * den := by omega
    exact_mod_cast h2
  have hden' : (den : ℚ) ≠ 0 := Nat.cast_ne_zero.mpr hden.ne'
  have hx : (num : ℚ) / den * 100 + 1 / 2 =
      ((200 * num + den : ℕ) : ℚ) / ((2 * den : ℕ) : ℚ) := by
    push_cast
    field_simp
    ring
  rw [round_eq, hx]
  have h1 : (roundHundredths num den) * (2 * den) ≤ 200 * num + den :=
    Nat.div_mul_le_self _ _
  have h2 : 200 * num + den < (roundHundredths num den + 1) * (2 * den) := by
    have hDnat : 0 < 2 * den := by omega
    exact (Nat.div_lt_iff_lt_mul hDnat).mp (Nat.lt_succ_self _)
  symm
  rw [Int.floor_eq_iff]
  constructor
  · rw [le_div_iff₀ hD]
    exact_mod_cast h1
  · rw [div_lt_iff₀ hD]
    exact_mod_cast h2

/-! ### The claims -/

/-- C1 (counterexample to the claim as stated): starting from an empty store,
the second of two identical calls appends the record again — reporting one
new row and zero duplicates and leaving the row twice in the store — because
the store never received a header row, so the dedup pass of the second call
skips the first (and only) data row as if it were the header. -/
theorem append_daily_data_twice_on_empty_store_reappends :
    append_daily_data (append_daily_data emptyOkStore [janRecord]).2 [janRecord] =
      (Except.ok { retval := some { updatedRows := 1 }, reportedNew := 1, reportedDup := 0 },
       { rows := [toRow janRecord, toRow janRecord], readOk := true, appendOk := true,
         sheetId := none, formatOk := true }) := rfl

/-- C1 (amended): when the snapshot read, the batch append and the cosmetic
format write all succeed, the store already holds at least one row (its first
row playing the role of the header) and no stored row is empty, then calling
`append_daily_data` twice in succession with the same non-empty records list
leaves the store exactly as after the first call; the second call appends
zero rows and reports a duplicate count equal to the length of the list. -/
theorem append_daily_data_idempotent_with_header
    (store : SheetStore) (records : List DailyRecord)
    (hread : store.readOk = true) (happ : store.appendOk = true)
    (hfmtok : store.formatOk = true) (hne : store.rows ≠ [])
    (hrows : ∀ r ∈ store.rows, r ≠ []) (hrec : records ≠ []) :
    ∃ out1 store1,
      append_daily_data store records = (Except.ok out1, store1) ∧
      append_daily_data store1 records =
        (Except.ok { retval := none, reportedNew := 0, reportedDup := records.length },
         store1) := by
  obtain ⟨ds1, hds1, hmem1⟩ := existingDatesOf_spec store hread hne hrows
  by_cases hnew1 : newRecordsOf ds1 records = []
  · have hall : ∀ r ∈ records, dateISO r.date ∈ ds1 := by
      intro r hr
      by_contra hmem
      have hrin : r ∈ newRecordsOf ds1 records := by
        rw [newRecordsOf, List.mem_filter]
        exact ⟨mem_sortedRecords.mpr hr, by simp [hmem]⟩
      rw [hnew1] at hrin
      simp at hrin
    have hcall := (append_daily_data_eq_core store records ds1 hrec hds1).trans
      (appendCore_all_dup store ds1 records hall)
    exact ⟨_, store, hcall, hcall⟩
  · have hcall1 := (append_daily_data_eq_core store records ds1 hrec hds1).trans
      (appendCore_success store ds1 records happ (Or.inl hfmtok) hnew1)
    have hrows1 : ∀ r ∈ (appendedStore store ds1 records).rows, r ≠ [] := by
      intro r hr
      rcases List.mem_append.mp hr with h | h
      · exact hrows r h
      · obtain ⟨rcd, _, rfl⟩ := List.mem_map.mp h
        exact toRow_ne_nil rcd
    have hne1 : (appendedStore store ds1 records).rows ≠ [] := by
      simp only [appendedStore]
      intro h
      rcases List.append_eq_nil.mp h with ⟨h1, _⟩
      exact hne h1
    obtain ⟨ds2, hds2, hmem2⟩ :=
      existingDatesOf_spec (appendedStore store ds1 records)
        (by simpa [appendedStore] using hread) hne1 hrows1
    have hdrop : (appendedStore store ds1 records).rows.drop 1 =
        store.rows.drop 1 ++ (newRecordsOf ds1 records).map toRow := by
      simp only [appendedStore]
      exact List.drop_append_of_le_length (by
        have hp := List.length_pos.mpr hne
        omega)
    have hall2 : ∀ r ∈ records, dateISO r.date ∈ ds2 := by
      intro r hr
      rw [hmem2]
      by_cases hd : dateISO r.date ∈ ds1
      · obtain ⟨tl, htl⟩ := (hmem1 _).mp hd
        refine ⟨tl, ?_⟩
        rw [hdrop, List.map_append]
        exact List.mem_append_left _ htl
      · have hrin : r ∈ newRecordsOf ds1 records := by
          rw [newRecordsOf, List.mem_filter]
          exact ⟨mem_sortedRecords.mpr hr, by simp [hd]⟩
        obtain ⟨tl, htl⟩ := head_render_toRow r
        refine ⟨tl, ?_⟩
        rw [hdrop, List.map_append]
        refine List.mem_append_right _ ?_
        rw [← htl]
        exact List.mem_map_of_mem _ (List.mem_map_of_mem _ hrin)
    have hcall2 :=
      (append_daily_data_eq_core (appendedStore store ds1 records) records ds2 hrec hds2).trans
        (appendCore_all_dup (appendedStore store ds1 records) ds2 records hall2)
    exact ⟨_, _, hcall1, hcall2⟩

/-- C1 witness: the amended idempotence at a concrete headed store. -/
theorem append_daily_data_idempotent_with_header_witness :
    ∃ out1 store1,
      append_daily_data headeredStore [sampleRecord] = (Except.ok out1, store1) ∧
      append_daily_data store1 [sampleRecord] =
        (Except.ok { retval := none, reportedNew := 0,
                     reportedDup := [sampleRecord].length }, store1) :=
  append_daily_data_idempotent_with_header headeredStore [sampleRecord]
    rfl rfl rfl (by decide) (by decide) (by decide)

/-- C2 (counterexample to the claim as stated): with the sheet-id lookup
succeeding (id 5) and the cosmetic format `batchUpdate` failing, the call
returns the error even though the batch append had already written the row. -/
theorem append_daily_data_format_failure_raises :
    (append_daily_data fmtFailStore [febRecord]).1 = Except.error SheetError.formatFailed ∧
    (append_daily_data fmtFailStore [febRecord]).2.rows =
      fmtFailStore.rows ++ [toRow febRecord] :=
  ⟨rfl, rfl⟩

/-- C2 (amended): after a successful batch append, a sheet-id lookup failure
is swallowed — the call still returns the successful result; but a failure of
the formatting write itself propagates as an error, the already-performed
append remaining in the store. -/
theorem append_daily_data_cosmetic_step
    (store : SheetStore) (records : List DailyRecord) (ds : List String)
    (hds : existingDatesOf store = .ok ds) (happ : store.appendOk = true)
    (hnew : newRecordsOf ds records ≠ []) :
    (store.sheetId = none →
      append_daily_data store records =
        (Except.ok (successOutcome ds records), appendedStore store ds records)) ∧
    (∀ id, store.sheetId = some id → id ≠ 0 → store.formatOk = false →
      append_daily_data store records =
        (Except.error SheetError.formatFailed, appendedStore store ds records)) := by
  have hrec : records ≠ [] := fun h => hnew (by subst h; rfl)
  constructor
  · intro hsid
    rw [append_daily_data_eq_core store records ds hrec hds]
    exact appendCore_success store ds records happ (Or.inr (Or.inl hsid)) hnew
  · intro id hsid hid hfok
    rw [append_daily_data_eq_core store records ds hrec hds]
    exact appendCore_format_fail store ds records happ id hsid hid hfok hnew

/-- C2 witness: the amended behaviour at a concrete store whose sheet-id
lookup failed. -/
theorem append_daily_data_cosmetic_step_witness :
    (headeredStore.sheetId = none →
      append_daily_data headeredStore [febRecord] =
        (Except.ok (successOutcome [] [febRecord]),
         appendedStore headeredStore [] [febRecord])) ∧
    (∀ id, headeredStore.sheetId = some id → id ≠ 0 → headeredStore.formatOk = false →
      append_daily_data headeredStore [febRecord] =
        (Except.error SheetError.formatFailed, appendedStore headeredStore [] [febRecord])) :=
  append_daily_data_cosmetic_step headeredStore [febRecord] [] rfl rfl (by decide)

/-- C3 (counterexample to the claim as stated): a call that appends one row
but whose cosmetic formatting write raises returns an error, not a result
carrying the counts and the write confirmation. -/
theorem append_daily_data_row_appended_without_result :
    (append_daily_data fmtFailStore2 [marRecord]).2.rows.length =
      fmtFailStore2.rows.length + 1 ∧
    (append_daily_data fmtFailStore2 [marRecord]).1 = Except.error SheetError.formatFailed :=
  ⟨rfl, rfl⟩

/-- C3 (amended): every call that appends at least one row and whose cosmetic
formatting step does not raise returns a result carrying the number of rows
appended, the number of duplicates skipped, and the write confirmation. -/
theorem append_daily_data_returns_counts
    (store : SheetStore) (records : List DailyRecord) (ds : List String)
    (hds : existingDatesOf store = .ok ds) (happ : store.appendOk = true)
    (hfmt : store.formatOk = true ∨ store.sheetId = none ∨ store.sheetId = some 0)
    (hnew : newRecordsOf ds records ≠ []) :
    0 < ((newRecordsOf ds records).map toRow).length ∧
    (append_daily_data store records).1 =
      Except.ok { retval := some { updatedRows := ((newRecordsOf ds records).map toRow).length }
                  reportedNew := ((newRecordsOf ds records).map toRow).length
                  reportedDup := dupCountOf ds records } := by
  have hrec : records ≠ [] := fun h => hnew (by subst h; rfl)
  constructor
  · simpa [List.length_pos] using hnew
  · rw [append_daily_data_eq_core store records ds hrec hds,
        appendCore_success store ds records happ hfmt hnew]
    rfl

/-- C3 witness: the amended result shape at a concrete store. -/
theorem append_daily_data_returns_counts_witness :
    0 < ((newRecordsOf [] [marRecord]).map toRow).length ∧
    (append_daily_data headeredStore [marRecord]).1 =
      Except.ok { retval := some { updatedRows := ((newRecordsOf [] [marRecord]).map toRow).length }
                  reportedNew := ((newRecordsOf [] [marRecord]).map toRow).length
                  reportedDup := dupCountOf [] [marRecord] } :=
  append_daily_data_returns_counts headeredStore [marRecord] [] rfl rfl
    (Or.inl rfl) (by decide)

/-- C4: when the snapshot read fails, the failure is swallowed and treated as
an empty store, so the dedup set is empty and every incoming record is
classified as new and appended. -/
theorem append_daily_data_read_failure_appends_all
    (store : SheetStore) (records : List DailyRecord)
    (hread : store.readOk = false) (hrec : records ≠ [])
    (happ : store.appendOk = true)
    (hfmt : store.formatOk = true ∨ store.sheetId = none ∨ store.sheetId = some 0) :
    get_existing_data store = [] ∧
    existingDatesOf store = Except.ok [] ∧
    append_daily_data store records =
      (Except.ok { retval := some { updatedRows := records.length }
                   reportedNew := records.length
                   reportedDup := 0 },
       { store with rows := store.rows ++ (sortedRecords records).map toRow }) := by
  have hget := get_existing_data_of_read_fail store hread
  have hds := existingDatesOf_of_get_nil store hget
  have hnn := newRecordsOf_nil_dates records
  have hnew : newRecordsOf [] records ≠ [] := by
    rw [hnn]
    exact sortedRecords_ne_nil hrec
  refine ⟨hget, hds, ?_⟩
  rw [append_daily_data_eq_core store records [] hrec hds,
      appendCore_success store [] records happ hfmt hnew]
  simp [successOutcome, appendedStore, hnn, dupCountOf_nil_dates, sortedRecords,
    List.length_insertionSort]

/-- C4 witness: the read-failure degradation at a concrete store. -/
theorem append_daily_data_read_failure_appends_all_witness :
    get_existing_data readFailStore = [] ∧
    existingDatesOf readFailStore = Except.ok [] ∧
    append_daily_data readFailStore [mayRecord] =
      (Except.ok { retval := some { updatedRows := [mayRecord].length }
                   reportedNew := [mayRecord].length
                   reportedDup := 0 },
       { readFailStore with
           rows := readFailStore.rows ++ (sortedRecords [mayRecord]).map toRow }) :=
  append_daily_data_read_failure_appends_all readFailStore [mayRecord]
    rfl (by decide) rfl (Or.inl rfl)

/-- C5: for non-negative integers `cached ≤ total`, the derived cache ratio
percentage of a built daily record equals `cached/total*100` rounded to two
decimals when `total > 0`, and equals `0` when `total = 0`. -/
theorem cacheRatioPercent_correct
    (d : Date) (u p b cb th cached total : Nat) (hct : cached ≤ total) :
    (0 < total →
      (mkDailyRecord d u p total cached b cb th).cacheRatioPercent =
        round2 ((cached : ℚ) / (total : ℚ) * 100)) ∧
    (total = 0 → (mkDailyRecord d u p total cached b cb th).cacheRatioPercent = 0) := by
  constructor
  · intro ht
    have h := roundHundredths_eq_round (cached * 100) total ht
    have harg : ((cached * 100 : ℕ) : ℚ) / (total : ℚ) * 100 =
        (cached : ℚ) / (total : ℚ) * 100 * 100 := by
      push_cast
      ring
    rw [harg] at h
    show ((cacheRatio100 cached total : ℕ) : ℚ) / 100 = _
    unfold round2 cacheRatio100
    rw [if_pos ht, ← h]
    push_cast
    ring
  · intro ht
    subst ht
    unfold DailyRecord.cacheRatioPercent mkDailyRecord cacheRatio100
    norm_num

/-- C5 witness: `cached = 1`, `total = 2` gives `round2 50 = 50`. -/
theorem cacheRatioPercent_correct_witness :
    (1 : ℕ) ≤ 2 ∧
    ((0 < 2 →
      (mkDailyRecord ⟨2024, 4, 2⟩ 3 4 2 1 10 5 0).cacheRatioPercent =
        round2 ((1 : ℚ) / (2 : ℚ) * 100)) ∧
     (2 = 0 → (mkDailyRecord ⟨2024, 4, 2⟩ 3 4 2 1 10 5 0).cacheRatioPercent = 0)) :=
  ⟨by decide, cacheRatioPercent_correct ⟨2024, 4, 2⟩ 3 4 10 5 0 1 2 (by decide)⟩

/-- C6: `format_bytes` handles the documented concrete cases, and for every
byte count it produces a two-decimal value followed by one unit of the ladder
B, KB, MB, GB, TB, PB. -/
theorem format_bytes_correct :
    format_bytes 0 = "0.00 B" ∧
    format_bytes 1024 = "1.00 KB" ∧
    format_bytes 1536 = "1.50 KB" ∧
    format_bytes (1024 * 1024) = "1.00 MB" ∧
    ∀ b : Nat, ∃ u n, u ∈ ["B", "KB", "MB", "GB", "TB", "PB"] ∧
      format_bytes b = toString (n / 100) ++ "." ++ pad2 (n % 100) ++ " " ++ u := by
  refine ⟨by decide, by decide, by decide, by decide, ?_⟩
  intro b
  unfold format_bytes
  split_ifs
  · exact ⟨"B", roundHundredths b 1, by simp, rfl⟩
  · exact ⟨"KB", roundHundredths b 1024, by simp, rfl⟩
  · exact ⟨"MB", roundHundredths b (1024 ^ 2), by simp, rfl⟩
  · exact ⟨"GB", roundHundredths b (1024 ^ 3), by simp, rfl⟩
  · exact ⟨"TB", roundHundredths b (1024 ^ 4), by simp, rfl⟩
  · exact ⟨"PB", roundHundredths b (1024 ^ 5), by simp, rfl⟩

/-- C7: on an empty records list the append is a no-op: the store is returned
unchanged and the call reports nothing to do. -/
theorem append_daily_data_empty_input (store : SheetStore) :
    append_daily_data store [] =
      (Except.ok { retval := none, reportedNew := 0, reportedDup := 0 }, store) := rfl

/-- C8: two incoming records with the same date, absent from the snapshot,
are both appended — dedup is only checked against the pre-read existing-date
set, never against rows collected earlier in the same call. -/
theorem append_daily_data_in_batch_duplicate_pair
    (store : SheetStore) (r1 r2 : DailyRecord) (ds : List String)
    (hds : existingDatesOf store = .ok ds)
    (hdate : r2.date = r1.date)
    (habs : dateISO r1.date ∉ ds)
    (happ : store.appendOk = true)
    (hfmt : store.formatOk = true ∨ store.sheetId = none ∨ store.sheetId = some 0) :
    append_daily_data store [r1, r2] =
      (Except.ok { retval := some { updatedRows := 2 }, reportedNew := 2, reportedDup := 0 },
       { store with rows := store.rows ++ [toRow r1, toRow r2] }) := by
  have hle : recordLe r1 r2 := recordLe_of_date_eq hdate
  have hsort : sortedRecords [r1, r2] = [r1, r2] := by
    unfold sortedRecords
    simp [List.insertionSort, List.orderedInsert, hle]
  have habs2 : dateISO r2.date ∉ ds := by
    rw [hdate]
    exact habs
  have hnewr : newRecordsOf ds [r1, r2] = [r1, r2] := by
    rw [newRecordsOf, hsort]
    simp [habs, habs2]
  have hdup : dupCountOf ds [r1, r2] = 0 := by
    rw [dupCountOf, hsort]
    simp [habs, habs2]
  rw [append_daily_data_eq_core store [r1, r2] ds (by simp) hds,
      appendCore_success store ds [r1, r2] happ hfmt (by rw [hnewr]; simp)]
  simp [successOutcome, appendedStore, hnewr, hdup]

/-- C8 witness: two concrete same-date records both get appended. -/
theorem append_daily_data_in_batch_duplicate_pair_witness :
    append_daily_data headeredStore [junRecordA, junRecordB] =
      (Except.ok { retval := some { updatedRows := 2 }, reportedNew := 2, reportedDup := 0 },
       { headeredStore with
           rows := headeredStore.rows ++ [toRow junRecordA, toRow junRecordB] }) :=
  append_daily_data_in_batch_duplicate_pair headeredStore junRecordA junRecordB []
    rfl rfl (by decide) rfl (Or.inl rfl)

/-- C9: when the snapshot read returns no rows the header is synthesized only
in memory (the dedup set comes out empty) and the batch write contains only
the formatted data rows — the header row is never written to the store. -/
theorem append_daily_data_no_header_written
    (store : SheetStore) (records : List DailyRecord)
    (hget : get_existing_data store = []) (hrec : records ≠ [])
    (happ : store.appendOk = true)
    (hfmt : store.formatOk = true ∨ store.sheetId = none ∨ store.sheetId = some 0) :
    existingDatesOf store = Except.ok [] ∧
    (append_daily_data store records).2.rows =
      store.rows ++ (sortedRecords records).map toRow ∧
    headers.map Cell.str ∉ (sortedRecords records).map toRow := by
  have hds := existingDatesOf_of_get_nil store hget
  have hnn := newRecordsOf_nil_dates records
  have hnew : newRecordsOf [] records ≠ [] := by
    rw [hnn]
    exact sortedRecords_ne_nil hrec
  refine ⟨hds, ?_, ?_⟩
  · rw [append_daily_data_eq_core store records [] hrec hds,
        appendCore_success store [] records happ hfmt hnew]
    simp [appendedStore, hnn]
  · intro hmem
    obtain ⟨r, _, heq⟩ := List.mem_map.mp hmem
    have hhead : (toRow r).head? = ((headers.map Cell.str) : List Cell).head? := by
      rw [heq]
    simp [toRow, headers] at hhead

/-- C9 witness: no header row is written when appending to an empty store. -/
theorem append_daily_data_no_header_written_witness :
    existingDatesOf emptyOkStore2 = Except.ok [] ∧
    (append_daily_data emptyOkStore2 [julRecord]).2.rows =
      emptyOkStore2.rows ++ (sortedRecords [julRecord]).map toRow ∧
    headers.map Cell.str ∉ (sortedRecords [julRecord]).map toRow :=
  append_daily_data_no_header_written emptyOkStore2 [julRecord]
    rfl (by decide) rfl (Or.inr (Or.inr rfl))

/-- C10: the scheduling gate fires exactly on the first day of the month. -/
theorem should_collect_data_iff_day_one (now : Timestamp) :
    should_collect_data now = true ↔ now.day = 1 := by
  simp [should_collect_data]
